import Mathlib

/-!
Verification development for the experiment/metadata-tracking facade in
`google/cloud/aiplatform/metadata/metadata.py`: the legacy `_MetadataService`
and the `_ExperimentTracker` state machines, shallowly embedded.  Remote
resource classes (`_Context`, `Execution`, `_Artifact`, `Experiment`,
`ExperimentRun`, `_MetadataStore`) live outside the provided sources and are
modelled from the specification's external-interface section.
-/

/-- Scalar values that can appear in params/metrics mappings.  Python floats
are modelled exactly as rationals; only type classification and equality of
stored values matter to the facade, never float arithmetic. -/
inductive MValue where
  | vInt (i : Int)
  | vFloat (q : Rat)
  | vBool (b : Bool)
  | vStr (s : String)
  deriving DecidableEq, Repr

/-- Python `isinstance(v, int)`: true for int and for bool (bool is a
subclass of int in Python). -/
def pyIsInstanceInt : MValue → Bool
  | .vInt _ => true
  | .vBool _ => true
  | _ => false

/-- Python `isinstance(v, float)`. -/
def pyIsInstanceFloat : MValue → Bool
  | .vFloat _ => true
  | _ => false

/-- Rendering of Python `type(v)` as it appears in an f-string. -/
def pyTypeName : MValue → String
  | .vInt _ => "<class \x27int\x27>"
  | .vFloat _ => "<class \x27float\x27>"
  | .vBool _ => "<class \x27bool\x27>"
  | .vStr _ => "<class \x27str\x27>"

/-- Rendering of Python `str(v)` as it appears in an f-string (float
rendering is a fixed model choice; no claim depends on its exact digits). -/
def pyStr : MValue → String
  | .vInt i => toString i
  | .vFloat q => toString q
  | .vBool b => if b then "True" else "False"
  | .vStr s => s

/-- Association list standing for a Python dict: insertion order preserved,
overwriting an existing key keeps its original position. -/
abbrev PyDict := List (String × MValue)

/-- Lookup in an association list keyed by strings. -/
def alistFind {α : Type} (d : List (String × α)) (k : String) : Option α :=
  (List.find? (fun kv => kv.1 == k) d).map Prod.snd

/-- Overwrite-or-append update of an association list: an existing key is
overwritten in place (keeping its position), a new key is appended. -/
def alistSet {α : Type} (d : List (String × α)) (k : String) (v : α) :
    List (String × α) :=
  if (List.any d fun kv => kv.1 == k) then
    List.map (fun kv => if kv.1 == k then (k, v) else kv) d
  else
    d ++ [(k, v)]

/-- Python `d[k] = v`: insertion order preserved, overwriting an existing
key keeps its original position. -/
def dictInsert (d : PyDict) (k : String) (v : MValue) : PyDict :=
  alistSet d k v

/-- Python `d.update(e)`: merge-overwrite, left to right over `e`. -/
def dictUpdate (d e : PyDict) : PyDict :=
  List.foldl (fun acc kv => dictInsert acc kv.1 kv.2) d e

/-- Python `key.startswith(p)`, on character lists. -/
def pyStartsWith (key p : String) : Bool :=
  List.isPrefixOf p.data key.data

/-- Python `key[n:]`, dropping `n` characters. -/
def pyDropChars (key : String) (n : Nat) : String :=
  String.mk (List.drop n key.data)

/-- Exceptions the facade can raise or observe. -/
inductive PyError where
  | valueError (msg : String)
  | typeError (msg : String)
  | notFound
  | serviceError
  deriving DecidableEq, Repr

/-- Lifecycle state of a run-like resource. -/
inductive RunState where
  | running
  | complete
  | failed
  deriving DecidableEq, Repr

/-- Schema title for experiment contexts (`constants.SYSTEM_EXPERIMENT`). -/
def SYSTEM_EXPERIMENT : String := "system.Experiment"

/-- Schema title for run executions (`constants.SYSTEM_RUN`). -/
def SYSTEM_RUN : String := "system.Run"

/-- Schema title for metrics artifacts (`constants.SYSTEM_METRICS`). -/
def SYSTEM_METRICS : String := "system.Metrics"

/-- Schema version used for all resource kinds (`constants.SCHEMA_VERSIONS`),
modelled as a single constant since the source reads it uniformly. -/
def SCHEMA_VERSION : String := "0.0.1"

/-- "No experiment set." message raised by `_validate_experiment_and_run`
(identical text in `_MetadataService` and `_ExperimentTracker`). -/
def noExperimentMsg (method_name : String) : String :=
  "No experiment set. Make sure to call aiplatform.init(experiment=\x27my-experiment\x27) before trying to "
    ++ method_name ++ ". "

/-- "No run set." message raised by `_validate_experiment_and_run`
(identical text in `_MetadataService` and `_ExperimentTracker`). -/
def noRunMsg (method_name : String) : String :=
  "No run set. Make sure to call aiplatform.start_run(\x27my-run\x27) before trying to "
    ++ method_name ++ ". "

/-- Message raised by `_ExperimentTracker.start_run` when no experiment is set. -/
def trackerStartRunNoExperimentMsg : String :=
  "No experiment set for this run. Make sure to call aiplatform.init(experiment=\x27my-experiment\x27) before invoking start_run. "

/-- Message raised by `_MetadataService.start_run` when no experiment is set. -/
def legacyStartRunNoExperimentMsg : String :=
  "No experiment set for this run. Make sure to call aiplatform.init(experiment=\x27my-experiment\x27) before trying to start_run. "

/-- Schema-conflict message for an experiment name already used by a
different resource kind (text from `_MetadataService.set_experiment`). -/
def experimentSchemaConflictMsg (experiment schema_title : String) : String :=
  "Experiment name " ++ experiment ++ " has been used to create other type of resources ("
    ++ schema_title ++ ") in this MetadataStore, please choose a different experiment name."

/-- Composed identity of a run resource: `{experiment_id}-{run_name}`. -/
def runResourceId (experiment_name run_name : String) : String :=
  experiment_name ++ "-" ++ run_name

/-- Remote record of one experiment run for the `_ExperimentTracker` model:
lifecycle state plus its params and metrics mappings. -/
structure RunEntry where
  state : RunState
  params : PyDict := []
  metrics : PyDict := []
  deriving DecidableEq, Repr

/-- Remote store as seen by `_ExperimentTracker`: experiment contexts
(name to schema kind) and run resources (composed id to record). -/
structure TStore where
  experiments : List (String × String) := []
  runs : List (String × RunEntry) := []
  deriving DecidableEq, Repr

/-- Modelled from the spec: `Experiment.get_or_create` from the missing
`experiment_resources` module — idempotent by name, returns the existing
resource when the schema kind matches, raises the schema-conflict
`ValueError` otherwise, creates the experiment when absent. -/
def Experiment.get_or_create (store : TStore) (experiment_name : String) :
    Except PyError (String × TStore) :=
  match alistFind store.experiments experiment_name with
  | some kind =>
      if kind == SYSTEM_EXPERIMENT then .ok (experiment_name, store)
      else .error (.valueError (experimentSchemaConflictMsg experiment_name kind))
  | none =>
      .ok (experiment_name,
        { store with
            experiments := store.experiments ++ [(experiment_name, SYSTEM_EXPERIMENT)] })

/-- Modelled from the spec: `ExperimentRun.create` from the missing
`experiment_run_resource` module — creates the run resource (state
`RUNNING`, empty params and metrics) under its composed id. -/
def ExperimentRun.create (store : TStore) (experiment_name run_name : String) :
    TStore :=
  { store with
      runs := alistSet store.runs (runResourceId experiment_name run_name)
        { state := .running } }

/-- Modelled from the spec: the `ExperimentRun(run_name, experiment)`
constructor — fetches the existing run by its composed id and raises
`NotFound` when the remote resource is missing. -/
def ExperimentRun.fetch (store : TStore) (experiment_name run_name : String) :
    Except PyError Unit :=
  match alistFind store.runs (runResourceId experiment_name run_name) with
  | some _ => .ok ()
  | none => .error .notFound

/-- Modelled from the spec: `ExperimentRun.update_state` — sets the remote
lifecycle state of the fetched run. -/
def ExperimentRun.update_state (store : TStore) (run_id : String)
    (state : RunState) : TStore :=
  { store with
      runs := List.map
        (fun kv => if kv.1 == run_id then (kv.1, { kv.2 with state := state }) else kv)
        store.runs }

/-- Modelled from the spec: the remote side of `ExperimentRun.end_run` —
sets the run's state to the given terminal value; raises `NotFound` when the
resource is gone; a transient remote failure propagates as-is. -/
def ExperimentRun.end_run_remote (transient : Bool) (store : TStore)
    (run_id : String) (state : RunState) : Except PyError TStore :=
  if transient then .error .serviceError
  else
    match alistFind store.runs run_id with
    | none => .error .notFound
    | some entry =>
        .ok { store with
                runs := alistSet store.runs run_id { entry with state := state } }

/-- In-process state of `_ExperimentTracker`: the active experiment and the
active experiment run (names; `None` when unset). -/
structure ExperimentTracker where
  experiment : Option String := none
  experiment_run : Option String := none
  deriving DecidableEq, Repr

/-- `_ExperimentTracker._validate_experiment_and_run`: raises the
"No experiment set." error when the experiment is unset, else the
"No run set." error when the run is unset; returns both names on success. -/
def ExperimentTracker.validate_experiment_and_run
    (tr : ExperimentTracker) (method_name : String) :
    Except PyError (String × String) :=
  match tr.experiment with
  | none => .error (.valueError (noExperimentMsg method_name))
  | some e =>
      match tr.experiment_run with
      | none => .error (.valueError (noRunMsg method_name))
      | some r => .ok (e, r)

/-- `_ExperimentTracker.end_run`: validates, calls the remote end; a
`NotFound` from the remote call is downgraded to a logged warning; the
`finally` block clears the active-run reference on every path that entered
the `try`. -/
def ExperimentTracker.end_run (transient : Bool) (tr : ExperimentTracker)
    (store : TStore) (state : RunState) :
    Except PyError Unit × ExperimentTracker × TStore :=
  match ExperimentTracker.validate_experiment_and_run tr "end_run" with
  | .error e => (.error e, tr, store)
  | .ok (e, r) =>
      match ExperimentRun.end_run_remote transient store (runResourceId e r) state with
      | .ok store2 => (.ok (), { tr with experiment_run := none }, store2)
      | .error .notFound => (.ok (), { tr with experiment_run := none }, store)
      | .error err => (.error err, { tr with experiment_run := none }, store)

/-- `_ExperimentTracker.start_run`: requires an experiment; implicitly ends
a previously active run; then either resumes an existing run (fetch by
composed id, set state `RUNNING`; `NotFound` surfaces) or creates a new one. -/
def ExperimentTracker.start_run (transient : Bool) (tr : ExperimentTracker)
    (store : TStore) (run_name : String) (resume : Bool) :
    Except PyError Unit × ExperimentTracker × TStore :=
  match tr.experiment with
  | none => (.error (.valueError trackerStartRunNoExperimentMsg), tr, store)
  | some e =>
      match
        (if tr.experiment_run.isSome then
          ExperimentTracker.end_run transient tr store .complete
        else (.ok (), tr, store)) with
      | (.error err, tr2, store2) => (.error err, tr2, store2)
      | (.ok _, tr2, store2) =>
          if resume then
            match ExperimentRun.fetch store2 e run_name with
            | .error err => (.error err, tr2, store2)
            | .ok _ =>
                (.ok (), { tr2 with experiment_run := some run_name },
                 ExperimentRun.update_state store2 (runResourceId e run_name) .running)
          else
            (.ok (), { tr2 with experiment_run := some run_name },
             ExperimentRun.create store2 e run_name)

/-- `_ExperimentTracker.set_experiment`: `self.reset()` first (clearing the
active experiment and run), then get-or-create of the experiment; an error
there leaves the tracker reset.  The optional description and backing
tensorboard are not modelled (no claim touches them). -/
def ExperimentTracker.set_experiment (tr : ExperimentTracker)
    (store : TStore) (experiment : String) :
    Except PyError Unit × ExperimentTracker × TStore :=
  let _ := tr
  let tr1 : ExperimentTracker := {}
  match Experiment.get_or_create store experiment with
  | .error e => (.error e, tr1, store)
  | .ok (name, store2) => (.ok (), { tr1 with experiment := some name }, store2)

/-- First metrics entry whose value fails Python's
`isinstance(v, int) or isinstance(v, float)` check, if any. -/
def firstInvalidMetric (metrics : PyDict) : Option (String × MValue) :=
  List.find? (fun kv => !(pyIsInstanceInt kv.2 || pyIsInstanceFloat kv.2)) metrics

/-- Invalid-metric-type message from `_validate_metrics_value_type`. -/
def invalidMetricMsg (key : String) (value : MValue) : String :=
  "metrics contain unsupported value types. key: " ++ key ++ "; value: "
    ++ pyStr value ++ "; type: " ++ pyTypeName value

/-- `_MetadataService._validate_metrics_value_type`: scans the mapping in
order and raises `TypeError` at the first value that is neither an int nor
a float instance. -/
def validate_metrics_value_type : PyDict → Except PyError Unit
  | [] => .ok ()
  | (k, v) :: rest =>
      if pyIsInstanceInt v || pyIsInstanceFloat v then
        validate_metrics_value_type rest
      else
        .error (.typeError (invalidMetricMsg k v))

/-- Modelled from the spec: the remote side of `ExperimentRun.log_params`
from the missing `experiment_run_resource` module — re-fetches the run and
merges the params (merge-overwrite). -/
def ExperimentRun.log_params_remote (store : TStore) (run_id : String)
    (params : PyDict) : Except PyError TStore :=
  match alistFind store.runs run_id with
  | none => .error .notFound
  | some entry =>
      .ok { store with
              runs := alistSet store.runs run_id
                { entry with params := dictUpdate entry.params params } }

/-- Modelled from the spec: the remote side of `ExperimentRun.log_metrics`
— validates every value is numeric, then re-fetches the metrics resource
and merges (merge-overwrite). -/
def ExperimentRun.log_metrics_remote (store : TStore) (run_id : String)
    (metrics : PyDict) : Except PyError TStore :=
  match validate_metrics_value_type metrics with
  | .error e => .error e
  | .ok _ =>
      match alistFind store.runs run_id with
      | none => .error .notFound
      | some entry =>
          .ok { store with
                  runs := alistSet store.runs run_id
                    { entry with metrics := dictUpdate entry.metrics metrics } }

/-- `_ExperimentTracker.log_params`: validates the session, then delegates
to the active run. -/
def ExperimentTracker.log_params (tr : ExperimentTracker) (store : TStore)
    (params : PyDict) : Except PyError Unit × TStore :=
  match ExperimentTracker.validate_experiment_and_run tr "log_params" with
  | .error e => (.error e, store)
  | .ok (e, r) =>
      match ExperimentRun.log_params_remote store (runResourceId e r) params with
      | .error err => (.error err, store)
      | .ok store2 => (.ok (), store2)

/-- `_ExperimentTracker.log_metrics`: validates the session, then delegates
to the active run. -/
def ExperimentTracker.log_metrics (tr : ExperimentTracker) (store : TStore)
    (metrics : PyDict) : Except PyError Unit × TStore :=
  match ExperimentTracker.validate_experiment_and_run tr "log_metrics" with
  | .error e => (.error e, store)
  | .ok (e, r) =>
      match ExperimentRun.log_metrics_remote store (runResourceId e r) metrics with
      | .error err => (.error err, store)
      | .ok store2 => (.ok (), store2)

/-- Python truthiness of an optional string (`None` and `""` are falsy). -/
def pyTruthyStr : Option String → Bool
  | none => false
  | some s => !(s == "")

/-- Schema-conflict message for a run name already used by a different
resource kind (text from `_MetadataService.start_run`). -/
def runSchemaConflictMsg (run schema_title : String) : String :=
  "Run name " ++ run ++ " has been used to create other type of resources ("
    ++ schema_title ++ ") in this MetadataStore, please choose a different run name."

/-- Wrong-schema message from `_get_experiment_or_pipeline_resource_name`. -/
def invalidSourceMsg (name source : String) : String :=
  "Please provide a valid " ++ source ++ " name. " ++ name ++ " is not a " ++ source ++ "."

/-- Modelled from the spec: `constants.EXPERIMENT_METADATA`, the fixed
initial metadata attached to experiment contexts (its exact content never
reaches a table row). -/
def EXPERIMENT_METADATA : PyDict := [("experiment_deleted", .vBool false)]

/-- A generic remote resource as exposed by the metadata store: identity,
display name, description, schema, and a metadata mapping. -/
structure Resource where
  name : String
  resource_name : String
  display_name : String
  description : Option String := none
  schema_title : String
  schema_version : String
  metadata : PyDict := []
  deriving DecidableEq, Repr

/-- Remote store as seen by the legacy `_MetadataService`: contexts,
executions and artifacts keyed by resource id, association edges, a
remote-call counter, and availability of the backing metadata store. -/
structure LegacyStore where
  metadataStoreOk : Bool := true
  contexts : List (String × Resource) := []
  executions : List (String × Resource) := []
  artifacts : List (String × Resource) := []
  contextExecutions : List (String × String) := []
  executionArtifacts : List (String × String × Bool) := []
  remoteCalls : Nat := 0
  deriving DecidableEq, Repr

/-- Modelled from the spec: generic `get_or_create(resource_id, ...)` on one
resource collection — idempotent by resource id; creates the resource with
the given fields when absent. -/
def resourceGetOrCreate (coll : List (String × Resource)) (resource_id : String)
    (display_name : Option String) (description : Option String)
    (schema_title schema_version : String) (metadata : PyDict) :
    Resource × List (String × Resource) :=
  match alistFind coll resource_id with
  | some r => (r, coll)
  | none =>
      let r : Resource :=
        { name := resource_id, resource_name := resource_id,
          display_name := display_name.getD "", description := description,
          schema_title := schema_title, schema_version := schema_version,
          metadata := metadata }
      (r, coll ++ [(resource_id, r)])

/-- Modelled from the spec: the `_MetadataStore.get_or_create()` bootstrap
call — one remote round trip that fails when the backing store is
unavailable. -/
def MetadataStore.get_or_create (store : LegacyStore) :
    Except PyError LegacyStore :=
  if store.metadataStoreOk then
    .ok { store with remoteCalls := store.remoteCalls + 1 }
  else .error .serviceError

/-- Modelled from the spec: `_Context.get_or_create`. -/
def Context.get_or_create (store : LegacyStore) (resource_id : String)
    (display_name description : Option String)
    (schema_title schema_version : String) (metadata : PyDict) :
    Resource × LegacyStore :=
  let (r, contexts2) := resourceGetOrCreate store.contexts resource_id
    display_name description schema_title schema_version metadata
  (r, { store with contexts := contexts2, remoteCalls := store.remoteCalls + 1 })

/-- Modelled from the spec: `_Context.update(metadata, description)` —
merges the metadata mapping and replaces the description. -/
def Context.update (store : LegacyStore) (resource_id : String)
    (metadata : PyDict) (description : Option String) :
    Resource × LegacyStore :=
  let upd := fun (r : Resource) =>
    { r with metadata := dictUpdate r.metadata metadata, description := description }
  let contexts2 := List.map
    (fun kv => if kv.1 == resource_id then (kv.1, upd kv.2) else kv) store.contexts
  ((alistFind contexts2 resource_id).getD
      { name := resource_id, resource_name := resource_id, display_name := "",
        schema_title := "", schema_version := "" },
   { store with contexts := contexts2, remoteCalls := store.remoteCalls + 1 })

/-- Modelled from the spec: `Execution.get_or_create`. -/
def Execution.get_or_create (store : LegacyStore) (resource_id : String)
    (display_name : Option String) (schema_title schema_version : String) :
    Resource × LegacyStore :=
  let (r, executions2) := resourceGetOrCreate store.executions resource_id
    display_name none schema_title schema_version []
  (r, { store with executions := executions2, remoteCalls := store.remoteCalls + 1 })

/-- Modelled from the spec: `Execution.update(metadata)` — merge-overwrite
of the execution's metadata mapping. -/
def Execution.update (store : LegacyStore) (resource_id : String)
    (metadata : PyDict) : LegacyStore :=
  { store with
      executions := List.map
        (fun kv => if kv.1 == resource_id then
            (kv.1, { kv.2 with metadata := dictUpdate kv.2.metadata metadata })
          else kv) store.executions,
      remoteCalls := store.remoteCalls + 1 }

/-- Modelled from the spec: `_Artifact.get_or_create`. -/
def Artifact.get_or_create (store : LegacyStore) (resource_id : String)
    (display_name : Option String) (schema_title schema_version : String) :
    Resource × LegacyStore :=
  let (r, artifacts2) := resourceGetOrCreate store.artifacts resource_id
    display_name none schema_title schema_version []
  (r, { store with artifacts := artifacts2, remoteCalls := store.remoteCalls + 1 })

/-- Modelled from the spec: `Artifact.update(metadata)` — merge-overwrite
of the artifact's metadata mapping. -/
def Artifact.update (store : LegacyStore) (resource_id : String)
    (metadata : PyDict) : LegacyStore :=
  { store with
      artifacts := List.map
        (fun kv => if kv.1 == resource_id then
            (kv.1, { kv.2 with metadata := dictUpdate kv.2.metadata metadata })
          else kv) store.artifacts,
      remoteCalls := store.remoteCalls + 1 }

/-- Modelled from the spec: `Context.add_artifacts_and_executions` — links
an execution under a parent context (idempotent link). -/
def Context.add_artifacts_and_executions (store : LegacyStore)
    (context_resource_name execution_resource_name : String) : LegacyStore :=
  let edge := (context_resource_name, execution_resource_name)
  { store with
      contextExecutions :=
        if store.contextExecutions.contains edge then store.contextExecutions
        else store.contextExecutions ++ [edge],
      remoteCalls := store.remoteCalls + 1 }

/-- Modelled from the spec: `Execution._add_artifact(..., input=False)` —
records an input/output event between an execution and an artifact. -/
def Execution.add_artifact (store : LegacyStore)
    (execution_resource_name artifact_resource_name : String) (input : Bool) :
    LegacyStore :=
  let edge := (execution_resource_name, artifact_resource_name, input)
  { store with
      executionArtifacts :=
        if store.executionArtifacts.contains edge then store.executionArtifacts
        else store.executionArtifacts ++ [edge],
      remoteCalls := store.remoteCalls + 1 }

/-- In-process state of the legacy `_MetadataService`: references to the
active experiment context, run execution and metrics artifact. -/
structure MetadataService where
  experiment : Option Resource := none
  run : Option Resource := none
  metrics : Option Resource := none
  deriving DecidableEq, Repr

/-- `_MetadataService._validate_experiment_and_run`: raises the
"No experiment set." error when the experiment is unset, else the
"No run set." error when the run is unset; returns both on success. -/
def MetadataService.validate_experiment_and_run
    (svc : MetadataService) (method_name : String) :
    Except PyError (Resource × Resource) :=
  match svc.experiment with
  | none => .error (.valueError (noExperimentMsg method_name))
  | some e =>
      match svc.run with
      | none => .error (.valueError (noRunMsg method_name))
      | some r => .ok (e, r)

/-- `_MetadataService.set_experiment`: bootstraps the metadata store, then
`self.reset()`, then get-or-create of the experiment context; schema-title
mismatch raises; a differing truthy description triggers an update; finally
the context becomes the active experiment. -/
def MetadataService.set_experiment (svc : MetadataService) (store : LegacyStore)
    (experiment : String) (description : Option String) :
    Except PyError Unit × MetadataService × LegacyStore :=
  match MetadataStore.get_or_create store with
  | .error e => (.error e, svc, store)
  | .ok store1 =>
      let svc1 : MetadataService := {}
      let (experiment_context, store2) := Context.get_or_create store1 experiment
        (some experiment) description SYSTEM_EXPERIMENT SCHEMA_VERSION EXPERIMENT_METADATA
      if experiment_context.schema_title ≠ SYSTEM_EXPERIMENT then
        (.error (.valueError
            (experimentSchemaConflictMsg experiment experiment_context.schema_title)),
         svc1, store2)
      else if pyTruthyStr description && experiment_context.description != description then
        let (experiment_context2, store3) :=
          Context.update store2 experiment_context.name experiment_context.metadata description
        (.ok (), { svc1 with experiment := some experiment_context2 }, store3)
      else
        (.ok (), { svc1 with experiment := some experiment_context }, store2)

/-- `_MetadataService.start_run`: requires an experiment; get-or-creates the
run execution `{experiment}-{run}` and the metrics artifact
`{experiment}-{run}-metrics`, checks both schemas, links the execution under
the experiment context and the artifact as output of the execution, and
makes both the active run and metrics. -/
def MetadataService.start_run (svc : MetadataService) (store : LegacyStore)
    (run : String) : Except PyError Unit × MetadataService × LegacyStore :=
  match svc.experiment with
  | none => (.error (.valueError legacyStartRunNoExperimentMsg), svc, store)
  | some exp =>
      let run_execution_id := exp.name ++ "-" ++ run
      let (run_execution, store1) :=
        Execution.get_or_create store run_execution_id (some run) SYSTEM_RUN SCHEMA_VERSION
      if run_execution.schema_title ≠ SYSTEM_RUN then
        (.error (.valueError (runSchemaConflictMsg run run_execution.schema_title)),
         svc, store1)
      else
        let store2 := Context.add_artifacts_and_executions store1
          exp.resource_name run_execution.resource_name
        let metrics_artifact_id := exp.name ++ "-" ++ run ++ "-metrics"
        let (metrics_artifact, store3) := Artifact.get_or_create store2
          metrics_artifact_id (some metrics_artifact_id) SYSTEM_METRICS SCHEMA_VERSION
        if metrics_artifact.schema_title ≠ SYSTEM_METRICS then
          (.error (.valueError (runSchemaConflictMsg run metrics_artifact.schema_title)),
           svc, store3)
        else
          let store4 := Execution.add_artifact store3
            run_execution.resource_name metrics_artifact.resource_name false
          (.ok (), { svc with run := some run_execution, metrics := some metrics_artifact },
           store4)

/-- `_MetadataService.log_params`: validates the session, re-fetches the run
execution, then merges the params into its metadata. -/
def MetadataService.log_params (svc : MetadataService) (store : LegacyStore)
    (params : PyDict) : Except PyError Unit × LegacyStore :=
  match MetadataService.validate_experiment_and_run svc "log_params" with
  | .error e => (.error e, store)
  | .ok (_, runRes) =>
      let (run_execution, store1) :=
        Execution.get_or_create store runRes.name none SYSTEM_RUN SCHEMA_VERSION
      (.ok (), Execution.update store1 run_execution.name params)

/-- `_MetadataService.log_metrics`: validates the session, validates every
metric value is numeric, re-fetches the metrics artifact, then merges the
metrics into its metadata. -/
def MetadataService.log_metrics (svc : MetadataService) (store : LegacyStore)
    (metrics : PyDict) : Except PyError Unit × LegacyStore :=
  match MetadataService.validate_experiment_and_run svc "log_metrics" with
  | .error e => (.error e, store)
  | .ok _ =>
      match validate_metrics_value_type metrics with
      | .error e => (.error e, store)
      | .ok _ =>
          match svc.metrics with
          | none => (.error .serviceError, store)
          | some m =>
              let (metric_artifact, store1) :=
                Artifact.get_or_create store m.name none SYSTEM_METRICS SCHEMA_VERSION
              (.ok (), Artifact.update store1 metric_artifact.name metrics)

/-- Key transform inside `_execution_to_column_named_metadata`: strip the
filter prefix from the key when the prefix is Python-truthy (given and
non-empty) and the key starts with it. -/
def sourceColumnKey (filterPref : Option String) (key : String) : String :=
  match filterPref with
  | some p => if !(p == "") && pyStartsWith key p then pyDropChars key p.data.length else key
  | none => key

/-- `_MetadataService._execution_to_column_named_metadata` (body): flattens a
metadata mapping into column-named entries `{category}.{key}` with the
prefix-stripped key. -/
def MetadataService.execution_to_column_named_metadata
    (metadata_type : String) (metadata : PyDict) (filterPref : Option String) :
    PyDict :=
  List.foldl (fun acc kv =>
      dictInsert acc (metadata_type ++ "." ++ sourceColumnKey filterPref kv.1) kv.2)
    [] metadata

/-- `_MetadataService._query_runs_to_data_frame`: lists executions of run
schema linked under the given context, and builds one row per run from the
context id, the run display name, its params, and the metrics of every
artifact associated with the run. -/
def MetadataService.query_runs_to_data_frame (store : LegacyStore)
    (context_id context_resource_name source : String) : List PyDict :=
  let run_executions := List.filter
    (fun (kv : String × Resource) =>
      kv.2.schema_title == SYSTEM_RUN &&
      List.any store.contextExecutions
        (fun ce => ce.1 == context_resource_name && ce.2 == kv.2.resource_name))
    store.executions
  List.map (fun (kv : String × Resource) =>
      let run_execution := kv.2
      let run_dict : PyDict :=
        [(source ++ "_name", .vStr context_id),
         ("run_name", .vStr run_execution.display_name)]
      let run_dict := dictUpdate run_dict
        (MetadataService.execution_to_column_named_metadata "param"
          run_execution.metadata none)
      let metric_artifacts := List.filterMap
        (fun (ea : String × String × Bool) =>
          if ea.1 == run_execution.resource_name then alistFind store.artifacts ea.2.1
          else none)
        store.executionArtifacts
      List.foldl (fun rd art => dictUpdate rd
          (MetadataService.execution_to_column_named_metadata "metric"
            art.metadata none))
        run_dict metric_artifacts)
    run_executions

/-- `_MetadataService.get_experiment_df`: resolves the named experiment (or
the active one), checks the schema on the named path, and returns the run
table (the data frame modelled as its list of rows). -/
def MetadataService.get_experiment_df (svc : MetadataService)
    (store : LegacyStore) (experiment : Option String) :
    Except PyError (List PyDict) :=
  match experiment with
  | none =>
      match svc.experiment with
      | none => .error .serviceError
      | some exp =>
          .ok (MetadataService.query_runs_to_data_frame store exp.name
            exp.resource_name "experiment")
  | some name =>
      match alistFind store.contexts name with
      | none => .error .notFound
      | some ctx =>
          if ctx.schema_title ≠ SYSTEM_EXPERIMENT then
            .error (.valueError (invalidSourceMsg name "experiment"))
          else
            .ok (MetadataService.query_runs_to_data_frame store name
              ctx.resource_name "experiment")

/-- Round-trip scenario of the spec: fresh store, experiment `exp-1`,
run `run-1`, one param and one metric logged. -/
def rtStep1 : Except PyError Unit × MetadataService × LegacyStore :=
  MetadataService.set_experiment {} {} "exp-1" none

/-- Round-trip scenario, after `start_run("run-1")`. -/
def rtStep2 : Except PyError Unit × MetadataService × LegacyStore :=
  MetadataService.start_run rtStep1.2.1 rtStep1.2.2 "run-1"

/-- Round-trip scenario, after `log_params` of `learning_rate = 0.1`. -/
def rtStep3 : Except PyError Unit × LegacyStore :=
  MetadataService.log_params rtStep2.2.1 rtStep2.2.2
    [("learning_rate", .vFloat 0.1)]

/-- Round-trip scenario, after `log_metrics` of `accuracy = 0.9`. -/
def rtStep4 : Except PyError Unit × LegacyStore :=
  MetadataService.log_metrics rtStep2.2.1 rtStep3.2 [("accuracy", .vFloat 0.9)]

/-- Round-trip scenario: the final experiment table. -/
def roundTripTable : Except PyError (List PyDict) :=
  MetadataService.get_experiment_df rtStep2.2.1 rtStep4.2 none

theorem alistFind_cons {α : Type} (kv : String × α) (d : List (String × α))
    (k : String) :
    alistFind (kv :: d) k = if kv.1 == k then some kv.2 else alistFind d k := by
  cases h : (kv.1 == k) <;> simp [alistFind, List.find?_cons, h]

theorem alistFind_map_replace_self {α : Type} (d : List (String × α))
    (k : String) (v : α) (h : List.any d (fun kv => kv.1 == k) = true) :
    alistFind (List.map (fun kv => if kv.1 == k then (k, v) else kv) d) k
      = some v := by
  induction d with
  | nil => simp at h
  | cons kv rest ih =>
      cases hk : (kv.1 == k) with
      | true =>
          have hkk : kv.1 = k := by simpa using hk
          simp [List.map_cons, hkk, alistFind_cons]
      | false =>
          have hkk : ¬(kv.1 = k) := by simpa using hk
          have h' : List.any rest (fun kv => kv.1 == k) = true := by
            simpa [List.any_cons, hk] using h
          simpa [List.map_cons, hkk, alistFind_cons] using ih h'

theorem alistFind_append_single_self {α : Type} (d : List (String × α))
    (k : String) (v : α) (h : List.any d (fun kv => kv.1 == k) = false) :
    alistFind (d ++ [(k, v)]) k = some v := by
  induction d with
  | nil => simp [alistFind, List.find?_cons]
  | cons kv rest ih =>
      have hk : (kv.1 == k) = false := by
        cases hk : (kv.1 == k)
        · rfl
        · rw [List.any_cons, hk, Bool.true_or] at h; exact h
      have hkk : ¬(kv.1 = k) := by simpa using hk
      have h' : List.any rest (fun kv => kv.1 == k) = false := by
        simpa [List.any_cons, hk] using h
      simpa [List.cons_append, alistFind_cons, hkk] using ih h'

theorem alistFind_alistSet_self {α : Type} (d : List (String × α))
    (k : String) (v : α) : alistFind (alistSet d k v) k = some v := by
  unfold alistSet
  cases h : List.any d (fun kv => kv.1 == k) with
  | true => simpa [h] using alistFind_map_replace_self d k v h
  | false => simpa [h] using alistFind_append_single_self d k v h

theorem alistFind_map_replace_ne {α : Type} (d : List (String × α))
    (k k' : String) (v : α) (h : k' ≠ k) :
    alistFind (List.map (fun kv => if kv.1 == k then (k, v) else kv) d) k'
      = alistFind d k' := by
  induction d with
  | nil => rfl
  | cons kv rest ih =>
      cases hk : (kv.1 == k) with
      | true =>
          have hkk : kv.1 = k := by simpa using hk
          have h1 : ¬(k = k') := fun hh => h hh.symm
          simpa [List.map_cons, hkk, alistFind_cons, h1] using ih
      | false =>
          have hkk : ¬(kv.1 = k) := by simpa using hk
          cases hk2 : (kv.1 == k') with
          | true =>
              have hkk2 : kv.1 = k' := by simpa using hk2
              simp [List.map_cons, hkk, alistFind_cons, hkk2, h]
          | false =>
              have hkk2 : ¬(kv.1 = k') := by simpa using hk2
              simpa [List.map_cons, hkk, alistFind_cons, hkk2] using ih

theorem alistFind_append_single_ne {α : Type} (d : List (String × α))
    (k k' : String) (v : α) (h : k' ≠ k) :
    alistFind (d ++ [(k, v)]) k' = alistFind d k' := by
  induction d with
  | nil =>
      have h1 : ¬(k = k') := fun hh => h hh.symm
      simp [alistFind, List.find?_cons, h1]
  | cons kv rest ih =>
      cases hk2 : (kv.1 == k') with
      | true =>
          have hkk2 : kv.1 = k' := by simpa using hk2
          simp [List.cons_append, alistFind_cons, hkk2]
      | false =>
          have hkk2 : ¬(kv.1 = k') := by simpa using hk2
          simpa [List.cons_append, alistFind_cons, hkk2] using ih

theorem alistFind_alistSet_ne {α : Type} (d : List (String × α))
    (k k' : String) (v : α) (h : k' ≠ k) :
    alistFind (alistSet d k v) k' = alistFind d k' := by
  unfold alistSet
  cases hany : List.any d (fun kv => kv.1 == k) with
  | true => simpa [hany] using alistFind_map_replace_ne d k k' v h
  | false => simpa [hany] using alistFind_append_single_ne d k k' v h

theorem any_key_eq_false_of_not_mem {α : Type} (d : List (String × α))
    (k : String) (h : k ∉ List.map Prod.fst d) :
    List.any d (fun kv => kv.1 == k) = false := by
  induction d with
  | nil => rfl
  | cons kv rest ih =>
      simp only [List.map_cons, List.mem_cons, not_or] at h
      have hk : (kv.1 == k) = false := by simp [Ne.symm h.1]
      simp [List.any_cons, hk, ih h.2]

theorem alistSet_append_of_not_mem {α : Type} (d : List (String × α))
    (k : String) (v : α) (h : k ∉ List.map Prod.fst d) :
    alistSet d k v = d ++ [(k, v)] := by
  unfold alistSet
  simp [any_key_eq_false_of_not_mem d k h]


/-- Concrete experiment resource used by witnesses. -/
def expResW : Resource :=
  { name := "exp-1", resource_name := "exp-1", display_name := "exp-1",
    schema_title := SYSTEM_EXPERIMENT, schema_version := SCHEMA_VERSION }

/-- Concrete run-execution resource used by witnesses. -/
def runResW : Resource :=
  { name := "exp-1-run-1", resource_name := "exp-1-run-1", display_name := "run-1",
    schema_title := SYSTEM_RUN, schema_version := SCHEMA_VERSION }

/-- Concrete metrics-artifact resource used by witnesses. -/
def metResW : Resource :=
  { name := "exp-1-run-1-metrics", resource_name := "exp-1-run-1-metrics",
    display_name := "exp-1-run-1-metrics", schema_title := SYSTEM_METRICS,
    schema_version := SCHEMA_VERSION }

/-- C2: with an active run whose remote resource is gone, `end_run` catches
the `NotFound`, logs a warning and returns normally, and the `finally`
block clears the active-run reference — the tracker ends with no active
run and an untouched store. -/
theorem end_run_not_found_warns_and_clears
    (tr : ExperimentTracker) (store : TStore) (e r : String) (state : RunState)
    (hexp : tr.experiment = some e) (hrun : tr.experiment_run = some r)
    (habsent : alistFind store.runs (runResourceId e r) = none) :
    ExperimentTracker.end_run false tr store state
      = (.ok (), { tr with experiment_run := none }, store) := by
  simp [ExperimentTracker.end_run, ExperimentTracker.validate_experiment_and_run,
    hexp, hrun, ExperimentRun.end_run_remote, habsent]

/-- C2 witness: a concrete active run absent from the store. -/
theorem end_run_not_found_warns_and_clears_witness :
    ExperimentTracker.end_run false
        { experiment := some "exp-1", experiment_run := some "run-1" } {} .complete
      = (.ok (), { experiment := some "exp-1", experiment_run := none }, {}) :=
  end_run_not_found_warns_and_clears
    { experiment := some "exp-1", experiment_run := some "run-1" } {}
    "exp-1" "run-1" .complete rfl rfl rfl

/-- C9: when the remote end-call fails with an exception other than
`NotFound` (a transient remote failure), `end_run` propagates the error but
the `finally` block still clears the active-run reference. -/
theorem end_run_other_error_propagates_and_clears
    (tr : ExperimentTracker) (store : TStore) (e r : String) (state : RunState)
    (hexp : tr.experiment = some e) (hrun : tr.experiment_run = some r) :
    ExperimentTracker.end_run true tr store state
      = (.error .serviceError, { tr with experiment_run := none }, store) := by
  simp [ExperimentTracker.end_run, ExperimentTracker.validate_experiment_and_run,
    hexp, hrun, ExperimentRun.end_run_remote]

/-- C9 witness: a concrete active run with a transient remote failure. -/
theorem end_run_other_error_propagates_and_clears_witness :
    ExperimentTracker.end_run true
        { experiment := some "exp-1", experiment_run := some "run-1" }
        { runs := [("exp-1-run-1", { state := .running })] } .complete
      = (.error .serviceError, { experiment := some "exp-1", experiment_run := none },
         { runs := [("exp-1-run-1", { state := .running })] }) :=
  end_run_other_error_propagates_and_clears
    { experiment := some "exp-1", experiment_run := some "run-1" }
    { runs := [("exp-1-run-1", { state := .running })] }
    "exp-1" "run-1" .complete rfl rfl

/-- C4: `start_run(resume=true)` with an experiment set fetches the
existing run by its composed id and sets its remote state to `RUNNING`;
when the composed id is absent remotely the `NotFound` error surfaces
unchanged, no run becomes active and no resource is created. -/
theorem start_run_resume_fetch_or_not_found
    (tr : ExperimentTracker) (store : TStore) (e run_name : String)
    (hexp : tr.experiment = some e) (hnorun : tr.experiment_run = none) :
    ExperimentTracker.start_run false tr store run_name true
      = match alistFind store.runs (runResourceId e run_name) with
        | some _ =>
            (.ok (), { tr with experiment_run := some run_name },
             ExperimentRun.update_state store (runResourceId e run_name) .running)
        | none => (.error .notFound, tr, store) := by
  cases hfind : alistFind store.runs (runResourceId e run_name) with
  | some entry =>
      simp [ExperimentTracker.start_run, hexp, hnorun, ExperimentRun.fetch, hfind]
  | none =>
      simp [ExperimentTracker.start_run, hexp, hnorun, ExperimentRun.fetch, hfind]

/-- C4 witness: resuming a run whose composed id is absent raises
`NotFound` and leaves tracker and store unchanged. -/
theorem start_run_resume_fetch_or_not_found_witness :
    ExperimentTracker.start_run false { experiment := some "exp-1" } {} "run-1" true
      = (.error .notFound, { experiment := some "exp-1" }, {}) :=
  start_run_resume_fetch_or_not_found { experiment := some "exp-1" } {} "exp-1" "run-1"
    rfl rfl

/-- C5 counterexample: with no active run, `log_params` raises a different
message depending on whether the experiment is also unset ("No experiment
set.") or only the run is unset ("No run set.") — the two messages are not
equal, contradicting the claim that the message does not differ. -/
theorem not_set_error_message_differs :
    (ExperimentTracker.log_params { experiment := none, experiment_run := none } {} []).1
      = .error (.valueError (noExperimentMsg "log_params")) ∧
    (ExperimentTracker.log_params { experiment := some "exp-1", experiment_run := none } {} []).1
      = .error (.valueError (noRunMsg "log_params")) ∧
    noExperimentMsg "log_params" ≠ noRunMsg "log_params" := by
  refine ⟨rfl, rfl, ?_⟩
  decide

/-- C5 amended: `log_params`/`log_metrics` with no active run fail with a
not-set `ValueError` whose message embeds the calling method's name, in
both tracker classes; the message names the experiment as missing when the
experiment is unset, and the run as missing when only the run is unset. -/
theorem log_params_metrics_not_set_errors
    (store : LegacyStore) (tstore : TStore) (d : PyDict) (e : Resource)
    (en : String) :
    (MetadataService.log_params {} store d).1
      = .error (.valueError (noExperimentMsg "log_params")) ∧
    (MetadataService.log_params { experiment := some e } store d).1
      = .error (.valueError (noRunMsg "log_params")) ∧
    (MetadataService.log_metrics {} store d).1
      = .error (.valueError (noExperimentMsg "log_metrics")) ∧
    (MetadataService.log_metrics { experiment := some e } store d).1
      = .error (.valueError (noRunMsg "log_metrics")) ∧
    (ExperimentTracker.log_params {} tstore d).1
      = .error (.valueError (noExperimentMsg "log_params")) ∧
    (ExperimentTracker.log_params { experiment := some en } tstore d).1
      = .error (.valueError (noRunMsg "log_params")) ∧
    (ExperimentTracker.log_metrics {} tstore d).1
      = .error (.valueError (noExperimentMsg "log_metrics")) ∧
    (ExperimentTracker.log_metrics { experiment := some en } tstore d).1
      = .error (.valueError (noRunMsg "log_metrics")) :=
  ⟨rfl, rfl, rfl, rfl, rfl, rfl, rfl, rfl⟩

/-- C6: starting from an empty store, setting experiment `exp-1`, starting
run `run-1`, logging `learning_rate = 0.1` as a param and `accuracy = 0.9`
as a metric, the experiment table has exactly one row with exactly the four
expected columns. -/
theorem round_trip_single_row :
    roundTripTable = .ok
      [[("experiment_name", .vStr "exp-1"), ("run_name", .vStr "run-1"),
        ("param.learning_rate", .vFloat 0.1), ("metric.accuracy", .vFloat 0.9)]] := by
  rfl

/-- Result of logging a boolean metric on top of the round-trip state. -/
def boolMetricResult : Except PyError Unit × LegacyStore :=
  MetadataService.log_metrics rtStep2.2.1 rtStep4.2 [("flag", .vBool true)]

/-- C10: `{"flag": true}` passes `_validate_metrics_value_type` (bool is an
int instance in Python) and is forwarded to the remote artifact update: the
call succeeds, the metrics artifact's metadata gains the `flag` entry, and
two further remote calls are made. -/
theorem bool_metric_passes_and_is_forwarded :
    validate_metrics_value_type [("flag", .vBool true)] = .ok () ∧
    boolMetricResult.1 = .ok () ∧
    (alistFind boolMetricResult.2.artifacts "exp-1-run-1-metrics").map Resource.metadata
      = some [("accuracy", .vFloat 0.9), ("flag", .vBool true)] ∧
    boolMetricResult.2.remoteCalls = rtStep4.2.remoteCalls + 2 :=
  ⟨rfl, rfl, rfl, rfl⟩

theorem validate_metrics_first_invalid (metrics : PyDict) (k : String) (v : MValue)
    (h : firstInvalidMetric metrics = some (k, v)) :
    validate_metrics_value_type metrics = .error (.typeError (invalidMetricMsg k v)) := by
  induction metrics with
  | nil => simp [firstInvalidMetric] at h
  | cons kv rest ih =>
      obtain ⟨k0, v0⟩ := kv
      cases hnum : (pyIsInstanceInt v0 || pyIsInstanceFloat v0) with
      | true =>
          rcases Bool.or_eq_true_iff.mp hnum with h1 | h1
          · have h' : firstInvalidMetric rest = some (k, v) := by
              simpa [firstInvalidMetric, List.find?_cons, h1] using h
            simpa [validate_metrics_value_type, h1] using ih h'
          · have h' : firstInvalidMetric rest = some (k, v) := by
              simpa [firstInvalidMetric, List.find?_cons, h1] using h
            simpa [validate_metrics_value_type, h1] using ih h'
      | false =>
          obtain ⟨h1, h2⟩ := Bool.or_eq_false_iff.mp hnum
          have h' : k0 = k ∧ v0 = v := by
            simpa [firstInvalidMetric, List.find?_cons, h1, h2] using h
          obtain ⟨hk, hv⟩ := h'
          subst hk
          subst hv
          simp [validate_metrics_value_type, h1, h2]

/-- C3: with an active run, `log_metrics` on a mapping whose first
non-numeric value is `v` at key `k` fails with the `TypeError` naming the
key, the value and its observed type, and the store comes back unchanged —
no remote call was issued before the failure.  Both the legacy service
(validation in `_validate_metrics_value_type`) and the tracker (validation
inside the delegated run call) are covered. -/
theorem log_metrics_invalid_value_fails_before_any_remote_call
    (svc : MetadataService) (store : LegacyStore) (metrics : PyDict)
    (er rr : Resource) (tr : ExperimentTracker) (tstore : TStore)
    (en rn k : String) (v : MValue)
    (hexp : svc.experiment = some er) (hrun : svc.run = some rr)
    (htexp : tr.experiment = some en) (htrun : tr.experiment_run = some rn)
    (hinv : firstInvalidMetric metrics = some (k, v)) :
    MetadataService.log_metrics svc store metrics
      = (.error (.typeError (invalidMetricMsg k v)), store) ∧
    ExperimentTracker.log_metrics tr tstore metrics
      = (.error (.typeError (invalidMetricMsg k v)), tstore) := by
  constructor
  · simp [MetadataService.log_metrics, MetadataService.validate_experiment_and_run,
      hexp, hrun, validate_metrics_first_invalid metrics k v hinv]
  · simp [ExperimentTracker.log_metrics, ExperimentTracker.validate_experiment_and_run,
      htexp, htrun, ExperimentRun.log_metrics_remote,
      validate_metrics_first_invalid metrics k v hinv]

/-- C3 witness: `{"a": "x"}` with an active run fails with the string-typed
error and leaves both stores untouched. -/
theorem log_metrics_invalid_value_fails_witness :
    MetadataService.log_metrics
        { experiment := some expResW, run := some runResW, metrics := some metResW }
        {} [("a", .vStr "x")]
      = (.error (.typeError (invalidMetricMsg "a" (.vStr "x"))), {}) ∧
    ExperimentTracker.log_metrics
        { experiment := some "exp-1", experiment_run := some "run-1" }
        {} [("a", .vStr "x")]
      = (.error (.typeError (invalidMetricMsg "a" (.vStr "x"))), {}) :=
  log_metrics_invalid_value_fails_before_any_remote_call
    { experiment := some expResW, run := some runResW, metrics := some metResW } {}
    [("a", .vStr "x")] expResW runResW
    { experiment := some "exp-1", experiment_run := some "run-1" } {}
    "exp-1" "run-1" "a" (.vStr "x") rfl rfl rfl rfl (by decide)

/-- Concrete context resource of a non-experiment kind, for witnesses. -/
def pipCtxW : Resource :=
  { name := "exp-1", resource_name := "exp-1", display_name := "exp-1",
    schema_title := "system.Pipeline", schema_version := SCHEMA_VERSION }

/-- Service state with an active experiment, run and metrics, for the C8
counterexample. -/
def activeSvcW : MetadataService :=
  { experiment := some expResW, run := some runResW, metrics := some metResW }

/-- C8 counterexample: in `_MetadataService.set_experiment` the
metadata-store bootstrap call is a remote interaction issued before
`self.reset()`; when it fails, the previously active experiment and run are
still referenced — the clear does not precede every remote interaction, so
the claim as stated is false for this tracker. -/
theorem set_experiment_remote_call_precedes_clear :
    MetadataService.set_experiment activeSvcW { metadataStoreOk := false } "exp-2" none
      = (.error .serviceError, activeSvcW, { metadataStoreOk := false }) ∧
    activeSvcW.run = some runResW ∧ activeSvcW.experiment = some expResW :=
  ⟨rfl, rfl, rfl⟩

/-- C8 amended: in both trackers the active experiment and run are cleared
before the experiment get-or-create call, so when that call's schema-title
check fails the tracker is left with no active experiment and no active
run (the prior state is not restored); in `_MetadataService` alone, a
metadata-store bootstrap call precedes the clear. -/
theorem set_experiment_failure_leaves_no_active_state
    (svc : MetadataService) (store : LegacyStore) (nm : String) (d : Option String)
    (ctx : Resource) (tr : ExperimentTracker) (tstore : TStore) (nm2 kind : String)
    (hok : store.metadataStoreOk = true)
    (hctx : alistFind store.contexts nm = some ctx)
    (hbad : ctx.schema_title ≠ SYSTEM_EXPERIMENT)
    (hkind : alistFind tstore.experiments nm2 = some kind)
    (hbad2 : kind ≠ SYSTEM_EXPERIMENT) :
    MetadataService.set_experiment svc store nm d
      = (.error (.valueError (experimentSchemaConflictMsg nm ctx.schema_title)),
         ({} : MetadataService),
         { store with remoteCalls := store.remoteCalls + 1 + 1 }) ∧
    ExperimentTracker.set_experiment tr tstore nm2
      = (.error (.valueError (experimentSchemaConflictMsg nm2 kind)),
         ({} : ExperimentTracker), tstore) := by
  constructor
  · simp [MetadataService.set_experiment, MetadataStore.get_or_create, hok,
      Context.get_or_create, resourceGetOrCreate, hctx, hbad]
  · simp [ExperimentTracker.set_experiment, Experiment.get_or_create, hkind, hbad2]

/-- C8 amended witness: a schema-conflicting experiment name in both
trackers, starting from active sessions. -/
theorem set_experiment_failure_leaves_no_active_state_witness :
    MetadataService.set_experiment activeSvcW
        { metadataStoreOk := true, contexts := [("exp-1", pipCtxW)] } "exp-1" none
      = (.error (.valueError (experimentSchemaConflictMsg "exp-1" "system.Pipeline")),
         ({} : MetadataService),
         { metadataStoreOk := true, contexts := [("exp-1", pipCtxW)], remoteCalls := 2 }) ∧
    ExperimentTracker.set_experiment
        { experiment := some "exp-0", experiment_run := some "run-0" }
        { experiments := [("exp-1", "system.Pipeline")] } "exp-1"
      = (.error (.valueError (experimentSchemaConflictMsg "exp-1" "system.Pipeline")),
         ({} : ExperimentTracker), { experiments := [("exp-1", "system.Pipeline")] }) := by
  have h := set_experiment_failure_leaves_no_active_state activeSvcW
    { metadataStoreOk := true, contexts := [("exp-1", pipCtxW)] } "exp-1" none pipCtxW
    { experiment := some "exp-0", experiment_run := some "run-0" }
    { experiments := [("exp-1", "system.Pipeline")] } "exp-1" "system.Pipeline"
    rfl rfl (by decide) rfl (by decide)
  exact h

/-- Column name as the specification words it: the key first has the
prefix removed when a prefix is given and the key starts with it, then the
result is namespaced as `{category}.{key}`. -/
def specColumnName (category : String) (pre : Option String) (key : String) :
    String :=
  category ++ "." ++
    (match pre with
     | some p => if pyStartsWith key p then pyDropChars key p.data.length else key
     | none => key)

theorem source_key_eq_spec (metadata_type : String) (fp : Option String)
    (key : String) :
    metadata_type ++ "." ++ sourceColumnKey fp key
      = specColumnName metadata_type fp key := by
  unfold sourceColumnKey specColumnName
  cases fp with
  | none => rfl
  | some p =>
      by_cases hp : p = ""
      · subst hp
        have h1 : pyStartsWith key "" = true := by
          unfold pyStartsWith
          cases key.data with
          | nil => rfl
          | cons c cs => rfl
        have h2a : pyDropChars key (("" : String).data.length) = key := by
          cases key with
          | mk data => simp [pyDropChars]
        have h2b : pyDropChars key 0 = key := h2a
        simp [h1, h2a, h2b]
      · simp [hp]

theorem column_named_metadata_foldl (metadata_type : String) (fp : Option String)
    (l : PyDict) (acc : PyDict)
    (h : (List.map Prod.fst acc
        ++ List.map (fun kv => specColumnName metadata_type fp kv.1) l).Nodup) :
    List.foldl (fun acc kv =>
        dictInsert acc (metadata_type ++ "." ++ sourceColumnKey fp kv.1) kv.2)
      acc l
      = acc ++ List.map (fun kv => (specColumnName metadata_type fp kv.1, kv.2)) l := by
  induction l generalizing acc with
  | nil => simp
  | cons kv rest ih =>
      rw [List.foldl_cons]
      have hnotmem : specColumnName metadata_type fp kv.1 ∉ List.map Prod.fst acc := by
        intro hmem
        have hdis := (List.nodup_append.mp h).2.2
        exact hdis hmem (by simp)
      have hins : dictInsert acc (metadata_type ++ "." ++ sourceColumnKey fp kv.1) kv.2
          = acc ++ [(specColumnName metadata_type fp kv.1, kv.2)] := by
        rw [source_key_eq_spec]
        exact alistSet_append_of_not_mem acc _ kv.2 hnotmem
      have h' : (List.map Prod.fst (acc ++ [(specColumnName metadata_type fp kv.1, kv.2)])
          ++ List.map (fun kv => specColumnName metadata_type fp kv.1) rest).Nodup := by
        rw [List.map_append, List.append_assoc]
        simpa using h
      rw [hins, ih _ h', List.map_cons, List.append_assoc, List.singleton_append]

/-- C7: whenever the resulting column names are distinct, the
column-flattening function maps each metadata entry `(key, value)` to
`({category}.{stripped key}, value)`, in order, where the stripped key has
the prefix removed exactly when a prefix is given and the key starts with
it, and values are carried over unmodified. -/
theorem execution_to_column_named_metadata_correct
    (metadata_type : String) (metadata : PyDict) (fp : Option String)
    (hnodup : (List.map (fun kv => specColumnName metadata_type fp kv.1) metadata).Nodup) :
    MetadataService.execution_to_column_named_metadata metadata_type metadata fp
      = List.map (fun kv => (specColumnName metadata_type fp kv.1, kv.2)) metadata := by
  unfold MetadataService.execution_to_column_named_metadata
  have h := column_named_metadata_foldl metadata_type fp metadata [] (by simpa using hnodup)
  simpa using h

/-- C7 witness: the pipeline-parameter prefix `input:` is stripped, other
keys are namespaced unchanged, values carried over. -/
theorem execution_to_column_named_metadata_correct_witness :
    MetadataService.execution_to_column_named_metadata "param"
        [("input:learning_rate", .vFloat 0.1), ("epochs", .vInt 5)] (some "input:")
      = [("param.learning_rate", .vFloat 0.1), ("param.epochs", .vInt 5)] := by
  have h := execution_to_column_named_metadata_correct "param"
    [("input:learning_rate", .vFloat 0.1), ("epochs", .vInt 5)] (some "input:")
    (by decide)
  simpa using h

/-- Folding a sequence of `start_run(name, resume=false)` calls on the
tracker, threading tracker and store. -/
def startRuns (names : List String) (s : ExperimentTracker × TStore) :
    ExperimentTracker × TStore :=
  List.foldl (fun s n => (ExperimentTracker.start_run false s.1 s.2 n false).2) s names

theorem runResourceId_injective (e a b : String)
    (hab : runResourceId e a = runResourceId e b) : a = b := by
  unfold runResourceId at hab
  have h := congrArg String.data hab
  simp [String.data_append] at h
  exact String.ext h

theorem start_run_step_no_active
    (tr : ExperimentTracker) (store : TStore) (e n : String)
    (hexp : tr.experiment = some e) (hnorun : tr.experiment_run = none) :
    ExperimentTracker.start_run false tr store n false
      = (.ok (), { tr with experiment_run := some n },
         ExperimentRun.create store e n) := by
  simp [ExperimentTracker.start_run, hexp, hnorun]

theorem start_run_step_active
    (tr : ExperimentTracker) (store : TStore) (e r n : String) (entry : RunEntry)
    (hexp : tr.experiment = some e) (hrun : tr.experiment_run = some r)
    (hfound : alistFind store.runs (runResourceId e r) = some entry) :
    ExperimentTracker.start_run false tr store n false
      = (.ok (), { tr with experiment_run := some n },
         ExperimentRun.create
           { store with runs := (alistSet store.runs (runResourceId e r)
               { entry with state := .complete }) } e n) := by
  simp [ExperimentTracker.start_run, ExperimentTracker.end_run,
    ExperimentTracker.validate_experiment_and_run, hexp, hrun,
    ExperimentRun.end_run_remote, hfound]

theorem startRuns_active_invariant (e : String) (names : List String)
    (tr : ExperimentTracker) (store : TStore) (r : String) (entry : RunEntry)
    (hexp : tr.experiment = some e)
    (hrun : tr.experiment_run = some r)
    (hfound : alistFind store.runs (runResourceId e r) = some entry)
    (hfresh : ∀ n ∈ names, alistFind store.runs (runResourceId e n) = none)
    (hnodup : (runResourceId e r :: List.map (runResourceId e) names).Nodup)
    (hne : names ≠ []) :
    (startRuns names (tr, store)).1.experiment = some e ∧
    (startRuns names (tr, store)).1.experiment_run = names.getLast? ∧
    ((alistFind (startRuns names (tr, store)).2.runs (runResourceId e r)).map RunEntry.state
      = some RunState.complete) ∧
    (∀ n ∈ names.dropLast,
      (alistFind (startRuns names (tr, store)).2.runs (runResourceId e n)).map RunEntry.state
        = some RunState.complete) ∧
    (∀ lastn, names.getLast? = some lastn →
      (alistFind (startRuns names (tr, store)).2.runs (runResourceId e lastn)).map RunEntry.state
        = some RunState.running) ∧
    (∀ id, id ≠ runResourceId e r → id ∉ List.map (runResourceId e) names →
      alistFind (startRuns names (tr, store)).2.runs id = alistFind store.runs id) := by
  induction names generalizing tr store r entry with
  | nil => exact absurd rfl hne
  | cons n ns ih =>
      have hstep := start_run_step_active tr store e r n entry hexp hrun hfound
      have h2 : (ExperimentTracker.start_run false tr store n false).2
          = ({ tr with experiment_run := some n },
             ExperimentRun.create
               { store with runs := (alistSet store.runs (runResourceId e r)
                   { entry with state := .complete }) } e n) := by rw [hstep]
      have hchain : startRuns (n :: ns) (tr, store)
          = startRuns ns
              ({ tr with experiment_run := some n },
               ExperimentRun.create
                 { store with runs := (alistSet store.runs (runResourceId e r)
                     { entry with state := .complete }) } e n) := by
        simp only [startRuns, List.foldl_cons, h2]
      set tr1 : ExperimentTracker := { tr with experiment_run := some n } with htr1
      set store1 : TStore :=
        ExperimentRun.create
          { store with runs := (alistSet store.runs (runResourceId e r)
              { entry with state := .complete }) } e n with hstore1
      rw [List.map_cons] at hnodup
      obtain ⟨hcr_notin, hns_nodup⟩ := List.nodup_cons.mp hnodup
      obtain ⟨hcn_notin, _⟩ := List.nodup_cons.mp hns_nodup
      have hcr_ne_cn : runResourceId e r ≠ runResourceId e n := by
        intro hh
        exact hcr_notin (hh ▸ List.mem_cons_self _ _)
      have hcr_notin_ns : runResourceId e r ∉ List.map (runResourceId e) ns := by
        intro hh
        exact hcr_notin (List.mem_cons_of_mem _ hh)
      have hruns1 : store1.runs
          = alistSet (alistSet store.runs (runResourceId e r) { entry with state := .complete })
              (runResourceId e n) { state := .running } := rfl
      have hfind_cr1 : alistFind store1.runs (runResourceId e r)
          = some { entry with state := .complete } := by
        rw [hruns1, alistFind_alistSet_ne _ _ _ _ hcr_ne_cn, alistFind_alistSet_self]
      have hfind_cn1 : alistFind store1.runs (runResourceId e n)
          = some { state := .running } := by
        rw [hruns1]
        exact alistFind_alistSet_self _ _ _
      have hfresh1 : ∀ m ∈ ns, alistFind store1.runs (runResourceId e m) = none := by
        intro m hm
        have hmem : runResourceId e m ∈ List.map (runResourceId e) ns :=
          List.mem_map_of_mem _ hm
        have hm_ne_cn : runResourceId e m ≠ runResourceId e n := by
          intro hh
          exact hcn_notin (hh ▸ hmem)
        have hm_ne_cr : runResourceId e m ≠ runResourceId e r := by
          intro hh
          exact hcr_notin_ns (hh ▸ hmem)
        rw [hruns1, alistFind_alistSet_ne _ _ _ _ hm_ne_cn,
          alistFind_alistSet_ne _ _ _ _ hm_ne_cr]
        exact hfresh m (List.mem_cons_of_mem _ hm)
      rcases ns with _ | ⟨b, l⟩
      · rw [hchain]
        refine ⟨hexp, rfl, ?_, ?_, ?_, ?_⟩
        · show (alistFind store1.runs (runResourceId e r)).map RunEntry.state
            = some RunState.complete
          simp [hfind_cr1]
        · intro m hm
          simp at hm
        · intro lastn hlast
          have hn : n = lastn := by simpa using hlast
          subst hn
          show (alistFind store1.runs (runResourceId e n)).map RunEntry.state
            = some RunState.running
          simp [hfind_cn1]
        · intro id hid1 hid2
          have hid_cn : id ≠ runResourceId e n := by
            intro hh
            exact hid2 (by rw [hh]; simp)
          show alistFind store1.runs id = alistFind store.runs id
          rw [hruns1, alistFind_alistSet_ne _ _ _ _ hid_cn,
            alistFind_alistSet_ne _ _ _ _ hid1]
      · have hexp1 : tr1.experiment = some e := hexp
        have hrun1 : tr1.experiment_run = some n := rfl
        obtain ⟨A1, A2, A3, A4, A5, A6⟩ := ih tr1 store1 n { state := .running }
          hexp1 hrun1 hfind_cn1 hfresh1 hns_nodup (by simp)
        rw [hchain]
        refine ⟨A1, ?_, ?_, ?_, ?_, ?_⟩
        · rw [A2, List.getLast?_cons_cons]
        · rw [A6 (runResourceId e r) hcr_ne_cn hcr_notin_ns]
          simp [hfind_cr1]
        · intro m hm
          rw [List.dropLast_cons₂] at hm
          rcases List.mem_cons.mp hm with hm1 | hm2
          · subst hm1
            exact A3
          · exact A4 m hm2
        · intro lastn hlast
          rw [List.getLast?_cons_cons] at hlast
          exact A5 lastn hlast
        · intro id hid1 hid2
          rw [List.map_cons] at hid2
          have hid_cn : id ≠ runResourceId e n := by
            intro hh
            exact hid2 (hh ▸ List.mem_cons_self _ _)
          have hid_ns : id ∉ List.map (runResourceId e) (b :: l) := by
            intro hh
            exact hid2 (List.mem_cons_of_mem _ hh)
          rw [A6 id hid_cn hid_ns, hruns1,
            alistFind_alistSet_ne _ _ _ _ hid_cn, alistFind_alistSet_ne _ _ _ _ hid1]

/-- C1: for every nonempty sequence of distinct, fresh run names started
with `start_run` (no intervening `end_run`) under an active experiment,
after the whole sequence only the most recently started run is the active
run; every earlier run's remote state was advanced to `COMPLETE` by the
implicit end at the start of the next `start_run`, and the last run's
remote state is `RUNNING`. -/
theorem start_run_sequence_only_last_active
    (e : String) (names : List String) (tr : ExperimentTracker) (store : TStore)
    (hexp : tr.experiment = some e) (hnorun : tr.experiment_run = none)
    (hfresh : ∀ n ∈ names, alistFind store.runs (runResourceId e n) = none)
    (hnodup : names.Nodup) (hne : names ≠ []) :
    (startRuns names (tr, store)).1.experiment_run = names.getLast? ∧
    (∀ n ∈ names.dropLast,
      (alistFind (startRuns names (tr, store)).2.runs (runResourceId e n)).map RunEntry.state
        = some RunState.complete) ∧
    (∀ lastn, names.getLast? = some lastn →
      (alistFind (startRuns names (tr, store)).2.runs (runResourceId e lastn)).map RunEntry.state
        = some RunState.running) := by
  rcases names with _ | ⟨n, ns⟩
  · exact absurd rfl hne
  · have hstep := start_run_step_no_active tr store e n hexp hnorun
    have h2 : (ExperimentTracker.start_run false tr store n false).2
        = ({ tr with experiment_run := some n }, ExperimentRun.create store e n) := by
      rw [hstep]
    have hchain : startRuns (n :: ns) (tr, store)
        = startRuns ns
            ({ tr with experiment_run := some n }, ExperimentRun.create store e n) := by
      simp only [startRuns, List.foldl_cons, h2]
    have hcids : (List.map (runResourceId e) (n :: ns)).Nodup :=
      List.Nodup.map (fun a b hab => runResourceId_injective e a b hab) hnodup
    rw [List.map_cons] at hcids
    obtain ⟨hcn_notin, hns_cids⟩ := List.nodup_cons.mp hcids
    have hruns1 : (ExperimentRun.create store e n).runs
        = alistSet store.runs (runResourceId e n) { state := .running } := rfl
    have hfind_cn : alistFind (ExperimentRun.create store e n).runs (runResourceId e n)
        = some { state := .running } := by
      rw [hruns1]
      exact alistFind_alistSet_self _ _ _
    rcases ns with _ | ⟨b, l⟩
    · rw [hchain]
      refine ⟨rfl, ?_, ?_⟩
      · intro m hm
        simp at hm
      · intro lastn hlast
        have hn : n = lastn := by simpa using hlast
        subst hn
        show (alistFind (ExperimentRun.create store e n).runs (runResourceId e n)).map RunEntry.state
          = some RunState.running
        simp [hfind_cn]
    · have hfresh1 : ∀ m ∈ (b :: l),
          alistFind (ExperimentRun.create store e n).runs (runResourceId e m) = none := by
        intro m hm
        have hmem : runResourceId e m ∈ List.map (runResourceId e) (b :: l) :=
          List.mem_map_of_mem _ hm
        have hm_ne : runResourceId e m ≠ runResourceId e n := by
          intro hh
          exact hcn_notin (hh ▸ hmem)
        rw [hruns1, alistFind_alistSet_ne _ _ _ _ hm_ne]
        exact hfresh m (List.mem_cons_of_mem _ hm)
      obtain ⟨A1, A2, A3, A4, A5, A6⟩ := startRuns_active_invariant e (b :: l)
        { tr with experiment_run := some n } (ExperimentRun.create store e n)
        n { state := .running } hexp rfl hfind_cn hfresh1 hcids (by simp)
      rw [hchain]
      refine ⟨?_, ?_, ?_⟩
      · rw [A2, List.getLast?_cons_cons]
      · intro m hm
        rw [List.dropLast_cons₂] at hm
        rcases List.mem_cons.mp hm with hm1 | hm2
        · subst hm1
          exact A3
        · exact A4 m hm2
      · intro lastn hlast
        rw [List.getLast?_cons_cons] at hlast
        exact A5 lastn hlast

/-- C1 witness: starting `run-1` then `run-2` under experiment `exp-1`
leaves `run-2` active and `RUNNING` remotely, with `run-1` advanced to
`COMPLETE`. -/
theorem start_run_sequence_only_last_active_witness :
    (startRuns ["run-1", "run-2"] ({ experiment := some "exp-1" }, {})).1.experiment_run
        = some "run-2" ∧
    (alistFind (startRuns ["run-1", "run-2"] ({ experiment := some "exp-1" }, {})).2.runs
        "exp-1-run-1").map RunEntry.state = some RunState.complete ∧
    (alistFind (startRuns ["run-1", "run-2"] ({ experiment := some "exp-1" }, {})).2.runs
        "exp-1-run-2").map RunEntry.state = some RunState.running := by
  obtain ⟨W1, W2, W3⟩ := start_run_sequence_only_last_active "exp-1" ["run-1", "run-2"]
    { experiment := some "exp-1" } {} rfl rfl (by decide) (by decide) (by decide)
  exact ⟨W1, W2 "run-1" (by decide), W3 "run-2" (by decide)⟩
